import Mathlib

/-
  Shallow embedding of the pantograph-designer scissor-lift stage solver
  (src/app.js: constraintsFromPreset, stageWarnings, computeStage, computeAll).

  JavaScript numbers are modelled as real numbers; Math.sin / Math.cos become
  Real.sin / Real.cos.  The warning strings pushed by the source are modelled
  by the inductive type Warning below: each distinct message text becomes one
  constructor, and the out-of-range messages keep their interpolated numeric
  payload (slider identity, computed coordinate, rail extent) rather than the
  formatted string.  The mutable global state.lockX read by computeStage is
  made an explicit parameter, so the embedding covers both code paths.
-/

noncomputable section

/-- A 2D point, as the source object literals of shape x/y. -/
structure Pt where
  x : ℝ
  y : ℝ

/-- rad(deg) from src/app.js: degrees to radians. -/
def rad (deg : ℝ) : ℝ := deg * Real.pi / 180

/-- The per-end mode strings of the source, either the string fixed or the string slide. -/
inductive EndMode
  | fixed
  | slide
deriving DecidableEq

/-- The constraint record returned by constraintsFromPreset. -/
structure Constraints where
  baseL : EndMode
  baseR : EndMode
  topL : EndMode
  topR : EndMode
deriving DecidableEq

/-- constraintsFromPreset from src/app.js: switch on the preset string,
unrecognized values fall through to the default (classic) table. -/
def constraintsFromPreset (p : String) : Constraints :=
  if p = "classic" then ⟨.fixed, .slide, .slide, .fixed⟩
  else if p = "mirrored" then ⟨.slide, .fixed, .fixed, .slide⟩
  else if p = "bothBaseFixed" then ⟨.fixed, .fixed, .slide, .fixed⟩
  else if p = "bothTopFixed" then ⟨.fixed, .slide, .fixed, .fixed⟩
  else ⟨.fixed, .slide, .slide, .fixed⟩

/-- Identity of the slider pin named in an out-of-range warning message. -/
inductive SliderId
  | baseLeftA
  | topLeftC
  | baseRightB
  | topRightD
deriving DecidableEq

/-- One warning message of the source.  The three nullary constructors stand
for the three fixed over-constraint strings pushed by stageWarnings; the
outOfRange constructor stands for the out-of-range message of the outOfRange
helper, keeping the slider name and the interpolated numbers. -/
inductive Warning
  | bothBaseFixed
  | bothTopFixed
  | overconstrained
  | outOfRange (slider : SliderId) (x lo hi : ℝ)

/-- stageWarnings from src/app.js: count fixed ends per rail, push the three
over-constraint messages in the fixed source order. -/
def stageWarnings (cons : Constraints) : List Warning :=
  let baseFixed : ℕ :=
    (if cons.baseL = EndMode.fixed then 1 else 0) +
    (if cons.baseR = EndMode.fixed then 1 else 0)
  let topFixed : ℕ :=
    (if cons.topL = EndMode.fixed then 1 else 0) +
    (if cons.topR = EndMode.fixed then 1 else 0)
  (if baseFixed = 2 then [Warning.bothBaseFixed] else []) ++
  (if topFixed = 2 then [Warning.bothTopFixed] else []) ++
  (if baseFixed = 2 ∧ topFixed = 2 then [Warning.overconstrained] else [])

/-- The outOfRange helper inside computeStage: if x lies outside [lo, hi] it
pushes one warning (and does not alter x); modelled as the list of warnings it
appends. -/
def outOfRangeWarn (slider : SliderId) (x lo hi : ℝ) : List Warning :=
  if x < lo ∨ hi < x then [Warning.outOfRange slider x lo hi] else []

/-- The platform record of rigid rail endpoints returned by computeStage. -/
structure Platform where
  xPlat : ℝ
  baseLeft : Pt
  baseRight : Pt
  topLeft : Pt
  topRight : Pt

/-- The stage record returned by computeStage. -/
structure StageResult where
  h : ℝ
  s : ℝ
  A : Pt
  B : Pt
  C : Pt
  D : Pt
  baseSpan : ℝ
  topSpan : ℝ
  platform : Platform
  warnings : List Warning

/-- computeStage from src/app.js.  The source reads the mutable global
state.lockX; here that flag is the explicit last parameter.  With lockX on it
branches on preset = mirrored: the mirrored branch grounds B and D at the
right rail ends and solves sliders A and C; every other preset grounds A and C
at the left rail ends and solves sliders B and D; each branch then runs its
two outOfRange checks, base slider first.  With lockX off it runs the older
experimental solver: nominal endpoints, fixed-end reassignment (a no-op,
since the nominal values are already the rail endpoints), the two arm
projection updates, and a centering shift. -/
def computeStage (Larm baseLen topLen alphaDeg : ℝ) (preset : String)
    (lockX : Bool) : StageResult :=
  let a := rad alphaDeg
  let h := Larm * Real.sin a
  let s := Larm * Real.cos a
  let cons := constraintsFromPreset preset
  let warnings₀ := stageWarnings cons
  let baseLeft := -baseLen / 2
  let baseRight := baseLen / 2
  let topLeft := -topLen / 2
  let topRight := topLen / 2
  if lockX then
    if preset = "mirrored" then
      let xB := baseRight
      let xD := topRight
      let xA := xD - s
      let xC := xB - s
      let warnings := warnings₀ ++
        outOfRangeWarn .baseLeftA xA baseLeft baseRight ++
        outOfRangeWarn .topLeftC xC topLeft topRight
      { h := h, s := s,
        A := ⟨xA, 0⟩, B := ⟨xB, 0⟩, C := ⟨xC, h⟩, D := ⟨xD, h⟩,
        baseSpan := baseLen, topSpan := topLen,
        platform := ⟨0, ⟨baseLeft, 0⟩, ⟨baseRight, 0⟩, ⟨topLeft, h⟩, ⟨topRight, h⟩⟩,
        warnings := warnings }
    else
      let xA := baseLeft
      let xC := topLeft
      let xD := xA + s
      let xB := xC + s
      let warnings := warnings₀ ++
        outOfRangeWarn .baseRightB xB baseLeft baseRight ++
        outOfRangeWarn .topRightD xD topLeft topRight
      { h := h, s := s,
        A := ⟨xA, 0⟩, B := ⟨xB, 0⟩, C := ⟨xC, h⟩, D := ⟨xD, h⟩,
        baseSpan := baseLen, topSpan := topLen,
        platform := ⟨0, ⟨baseLeft, 0⟩, ⟨baseRight, 0⟩, ⟨topLeft, h⟩, ⟨topRight, h⟩⟩,
        warnings := warnings }
  else
    let xA₀ := baseLeft
    let xB₀ := baseRight
    let xC₀ := topLeft
    let xD₀ := topRight
    let xD₁ := if cons.topR = EndMode.slide then xA₀ + s else xD₀
    let xA₁ := if cons.topR = EndMode.slide then xA₀
      else if cons.baseL = EndMode.slide then xD₀ - s else xA₀
    let xC₁ := if cons.topL = EndMode.slide then xB₀ + s else xC₀
    let xB₁ := if cons.topL = EndMode.slide then xB₀
      else if cons.baseR = EndMode.slide then xC₀ - s else xB₀
    let center := (xA₁ + xB₁ + xC₁ + xD₁) / 4
    let xA := xA₁ - center
    let xB := xB₁ - center
    let xC := xC₁ - center
    let xD := xD₁ - center
    { h := h, s := s,
      A := ⟨xA, 0⟩, B := ⟨xB, 0⟩, C := ⟨xC, h⟩, D := ⟨xD, h⟩,
      baseSpan := xB - xA, topSpan := xD - xC,
      platform := ⟨0, ⟨baseLeft, 0⟩, ⟨baseRight, 0⟩, ⟨topLeft, h⟩, ⟨topRight, h⟩⟩,
      warnings := warnings₀ }

/-- One stacked stage copy produced by the computeAll loop. -/
structure StackStage where
  idx : ℕ
  A : Pt
  B : Pt
  C : Pt
  D : Pt
  h : ℝ
  s : ℝ

/-- The assembly record returned by computeAll. -/
structure AllResult where
  stage0 : StageResult
  stages : List StackStage
  totalH : ℝ

/-- computeAll from src/app.js: solve one stage from the state fields, then
stack N copies, the i-th (0-based) translated vertically by i * h, and report
totalH = N * h.  The state fields are explicit parameters here. -/
def computeAll (Larm baseLen topLen alphaDeg : ℝ) (preset : String)
    (lockX : Bool) (N : ℕ) : AllResult :=
  let stage := computeStage Larm baseLen topLen alphaDeg preset lockX
  let stages := (List.range N).map (fun (i : ℕ) =>
    let yOffset := (i : ℝ) * stage.h
    { idx := i + 1,
      A := ⟨stage.A.x, stage.A.y + yOffset⟩,
      B := ⟨stage.B.x, stage.B.y + yOffset⟩,
      C := ⟨stage.C.x, stage.C.y + yOffset⟩,
      D := ⟨stage.D.x, stage.D.y + yOffset⟩,
      h := stage.h, s := stage.s })
  { stage0 := stage, stages := stages, totalH := (N : ℝ) * stage.h }

/-- Euclidean distance between two points. -/
def distPt (p q : Pt) : ℝ := Real.sqrt ((q.x - p.x) ^ 2 + (q.y - p.y) ^ 2)

/-- Default stack stage used as the getD fallback in statements. -/
def zeroStage : StackStage := ⟨0, ⟨0, 0⟩, ⟨0, 0⟩, ⟨0, 0⟩, ⟨0, 0⟩, 0, 0⟩

/-- Closed form of computeStage with lockX on for any non-mirrored preset. -/
theorem computeStage_true_not_mirrored (L b t α : ℝ) (p : String)
    (hp : ¬ p = "mirrored") :
    computeStage L b t α p true =
      { h := L * Real.sin (rad α), s := L * Real.cos (rad α),
        A := ⟨-b / 2, 0⟩,
        B := ⟨-t / 2 + L * Real.cos (rad α), 0⟩,
        C := ⟨-t / 2, L * Real.sin (rad α)⟩,
        D := ⟨-b / 2 + L * Real.cos (rad α), L * Real.sin (rad α)⟩,
        baseSpan := b, topSpan := t,
        platform := ⟨0, ⟨-b / 2, 0⟩, ⟨b / 2, 0⟩,
          ⟨-t / 2, L * Real.sin (rad α)⟩, ⟨t / 2, L * Real.sin (rad α)⟩⟩,
        warnings := stageWarnings (constraintsFromPreset p) ++
          outOfRangeWarn .baseRightB (-t / 2 + L * Real.cos (rad α)) (-b / 2) (b / 2) ++
          outOfRangeWarn .topRightD (-b / 2 + L * Real.cos (rad α)) (-t / 2) (t / 2) } := by
  simp [computeStage, hp]

/-- Closed form of computeStage with lockX on for the mirrored preset. -/
theorem computeStage_true_mirrored (L b t α : ℝ) (p : String)
    (hp : p = "mirrored") :
    computeStage L b t α p true =
      { h := L * Real.sin (rad α), s := L * Real.cos (rad α),
        A := ⟨t / 2 - L * Real.cos (rad α), 0⟩,
        B := ⟨b / 2, 0⟩,
        C := ⟨b / 2 - L * Real.cos (rad α), L * Real.sin (rad α)⟩,
        D := ⟨t / 2, L * Real.sin (rad α)⟩,
        baseSpan := b, topSpan := t,
        platform := ⟨0, ⟨-b / 2, 0⟩, ⟨b / 2, 0⟩,
          ⟨-t / 2, L * Real.sin (rad α)⟩, ⟨t / 2, L * Real.sin (rad α)⟩⟩,
        warnings := stageWarnings (constraintsFromPreset p) ++
          outOfRangeWarn .baseLeftA (t / 2 - L * Real.cos (rad α)) (-b / 2) (b / 2) ++
          outOfRangeWarn .topLeftC (b / 2 - L * Real.cos (rad α)) (-t / 2) (t / 2) } := by
  simp [computeStage, hp]

/-- C7: for every armLength, angleDeg, preset and mode flag, the rise h and
projection s returned by computeStage satisfy the exact Pythagorean identity
h ^ 2 + s ^ 2 = armLength ^ 2. -/
theorem computeStage_pythagorean (L b t α : ℝ) (p : String) (lk : Bool) :
    (computeStage L b t α p lk).h ^ 2 + (computeStage L b t α p lk).s ^ 2 = L ^ 2 := by
  have key : (L * Real.sin (rad α)) ^ 2 + (L * Real.cos (rad α)) ^ 2 = L ^ 2 := by
    rw [mul_pow, mul_pow, ← mul_add, Real.sin_sq_add_cos_sq, mul_one]
  cases lk <;> by_cases hp : p = "mirrored" <;>
    simpa [computeStage, hp] using key

/-- C1: in both the mirrored and the non-mirrored branch of the lockX solver,
the Euclidean distances A to D and B to C both equal the (nonnegative) arm
length. -/
theorem arm_length_invariant (L b t α : ℝ) (p : String) (hL : 0 ≤ L) :
    distPt (computeStage L b t α p true).A (computeStage L b t α p true).D = L ∧
    distPt (computeStage L b t α p true).B (computeStage L b t α p true).C = L := by
  have key : Real.sqrt ((L * Real.cos (rad α)) ^ 2 + (L * Real.sin (rad α)) ^ 2) = L := by
    have h1 : (L * Real.cos (rad α)) ^ 2 + (L * Real.sin (rad α)) ^ 2 = L ^ 2 := by
      rw [mul_pow, mul_pow, ← mul_add, Real.cos_sq_add_sin_sq, mul_one]
    rw [h1, Real.sqrt_sq hL]
  by_cases hp : p = "mirrored"
  · rw [computeStage_true_mirrored L b t α p hp]
    constructor
    · simp only [distPt]
      convert key using 2
      ring
    · simp only [distPt]
      convert key using 2
      ring
  · rw [computeStage_true_not_mirrored L b t α p hp]
    constructor
    · simp only [distPt]
      convert key using 2
      ring
    · simp only [distPt]
      convert key using 2
      ring

/-- Witness for C1 at a concrete feasible configuration. -/
theorem arm_length_invariant_witness :
    (0 : ℝ) ≤ 600 ∧
    (distPt (computeStage 600 1200 1200 0 ("classic") true).A
        (computeStage 600 1200 1200 0 ("classic") true).D = 600 ∧
     distPt (computeStage 600 1200 1200 0 ("classic") true).B
        (computeStage 600 1200 1200 0 ("classic") true).C = 600) :=
  ⟨by norm_num, arm_length_invariant 600 1200 1200 0 ("classic") (by norm_num)⟩

/-- The three symbolic over-constraint messages are the only warnings that
stageWarnings can emit: no out-of-range message is ever among them. -/
theorem outOfRange_not_mem_stageWarnings (sl : SliderId) (x lo hi : ℝ)
    (c : Constraints) : Warning.outOfRange sl x lo hi ∉ stageWarnings c := by
  simp only [stageWarnings]
  split_ifs <;> simp

/-- Membership in the list appended by the outOfRange helper. -/
theorem mem_outOfRangeWarn {w : Warning} {sl : SliderId} {x lo hi : ℝ} :
    w ∈ outOfRangeWarn sl x lo hi ↔
      ((x < lo ∨ hi < x) ∧ w = Warning.outOfRange sl x lo hi) := by
  unfold outOfRangeWarn
  split_ifs with hc <;> simp [hc]

/-- C2: the solved slider pins always carry the exact coordinate from the
arm-length constraint (grounded-pin X plus or minus the projection s), and the
out-of-range warning for a slider is present exactly when that unmodified
coordinate leaves its rail extent: the solver never clamps. -/
theorem slider_out_of_range_unclamped (L b t α : ℝ) (p : String) :
    (p = "mirrored" →
      (computeStage L b t α p true).A.x = t / 2 - L * Real.cos (rad α) ∧
      (computeStage L b t α p true).C.x = b / 2 - L * Real.cos (rad α) ∧
      (((computeStage L b t α p true).A.x < -b / 2 ∨
          b / 2 < (computeStage L b t α p true).A.x) ↔
        Warning.outOfRange SliderId.baseLeftA ((computeStage L b t α p true).A.x)
            (-b / 2) (b / 2) ∈ (computeStage L b t α p true).warnings) ∧
      (((computeStage L b t α p true).C.x < -t / 2 ∨
          t / 2 < (computeStage L b t α p true).C.x) ↔
        Warning.outOfRange SliderId.topLeftC ((computeStage L b t α p true).C.x)
            (-t / 2) (t / 2) ∈ (computeStage L b t α p true).warnings)) ∧
    (¬ p = "mirrored" →
      (computeStage L b t α p true).B.x = -t / 2 + L * Real.cos (rad α) ∧
      (computeStage L b t α p true).D.x = -b / 2 + L * Real.cos (rad α) ∧
      (((computeStage L b t α p true).B.x < -b / 2 ∨
          b / 2 < (computeStage L b t α p true).B.x) ↔
        Warning.outOfRange SliderId.baseRightB ((computeStage L b t α p true).B.x)
            (-b / 2) (b / 2) ∈ (computeStage L b t α p true).warnings) ∧
      (((computeStage L b t α p true).D.x < -t / 2 ∨
          t / 2 < (computeStage L b t α p true).D.x) ↔
        Warning.outOfRange SliderId.topRightD ((computeStage L b t α p true).D.x)
            (-t / 2) (t / 2) ∈ (computeStage L b t α p true).warnings)) := by
  constructor
  · intro hp
    rw [computeStage_true_mirrored L b t α p hp]
    refine ⟨rfl, rfl, ?_, ?_⟩ <;>
      simp [List.mem_append, mem_outOfRangeWarn, outOfRange_not_mem_stageWarnings]
  · intro hp
    rw [computeStage_true_not_mirrored L b t α p hp]
    refine ⟨rfl, rfl, ?_, ?_⟩ <;>
      simp [List.mem_append, mem_outOfRangeWarn, outOfRange_not_mem_stageWarnings]

/-- Witness for C2: short rails, the base-right slider lands at 500, outside
[-100, 100], and the out-of-range warning carrying the unclamped value 500 is
in the returned warnings. -/
theorem slider_out_of_range_unclamped_witness :
    (computeStage 600 200 200 0 ("classic") true).B.x = 500 ∧
    Warning.outOfRange SliderId.baseRightB
        ((computeStage 600 200 200 0 ("classic") true).B.x)
        (-(200 : ℝ) / 2) ((200 : ℝ) / 2) ∈
      (computeStage 600 200 200 0 ("classic") true).warnings := by
  have h := (slider_out_of_range_unclamped 600 200 200 0 ("classic")).2 (by decide)
  obtain ⟨hB, hD, hBiff, hDiff⟩ := h
  have hr : rad 0 = 0 := by simp [rad]
  have hBx : (computeStage 600 200 200 0 ("classic") true).B.x = 500 := by
    rw [hB, hr, Real.cos_zero]; norm_num
  exact ⟨hBx, hBiff.mp (by rw [hBx]; norm_num)⟩

/-- C3: the warnings list is always the symbolic over-constraint messages (in
the fixed order both-base, both-top, overconstrained encoded by
stageWarnings) followed by the out-of-range slider messages in evaluation
order, base-rail slider before top-rail slider, in the branch the preset
selected. -/
theorem warnings_ordered (L b t α : ℝ) (p : String) :
    (computeStage L b t α p true).warnings =
      stageWarnings (constraintsFromPreset p) ++
      (if p = "mirrored" then
        outOfRangeWarn SliderId.baseLeftA (t / 2 - L * Real.cos (rad α)) (-b / 2) (b / 2) ++
        outOfRangeWarn SliderId.topLeftC (b / 2 - L * Real.cos (rad α)) (-t / 2) (t / 2)
      else
        outOfRangeWarn SliderId.baseRightB (-t / 2 + L * Real.cos (rad α)) (-b / 2) (b / 2) ++
        outOfRangeWarn SliderId.topRightD (-b / 2 + L * Real.cos (rad α)) (-t / 2) (t / 2)) := by
  by_cases hp : p = "mirrored"
  · rw [computeStage_true_mirrored L b t α p hp, if_pos hp]
    simp [List.append_assoc]
  · rw [computeStage_true_not_mirrored L b t α p hp, if_neg hp]
    simp [List.append_assoc]

/-- C4: grounding invariant; any non-mirrored preset (unrecognized strings
included) grounds A at the left base-rail end and C at the left top-rail end;
the mirrored preset grounds B at the right base-rail end and D at the right
top-rail end, all exact. -/
theorem grounding_invariant (L b t α : ℝ) (p : String) :
    (¬ p = "mirrored" →
      (computeStage L b t α p true).A.x = -b / 2 ∧
      (computeStage L b t α p true).C.x = -t / 2) ∧
    (p = "mirrored" →
      (computeStage L b t α p true).B.x = b / 2 ∧
      (computeStage L b t α p true).D.x = t / 2) := by
  constructor
  · intro hp
    rw [computeStage_true_not_mirrored L b t α p hp]
    exact ⟨rfl, rfl⟩
  · intro hp
    rw [computeStage_true_mirrored L b t α p hp]
    exact ⟨rfl, rfl⟩

/-- Witness for C4, with an unrecognized preset string on the non-mirrored
side and the mirrored preset on the other. -/
theorem grounding_invariant_witness :
    ((computeStage 600 1200 800 0 ("weird") true).A.x = -1200 / 2 ∧
     (computeStage 600 1200 800 0 ("weird") true).C.x = -800 / 2) ∧
    ((computeStage 600 1200 800 0 ("mirrored") true).B.x = 1200 / 2 ∧
     (computeStage 600 1200 800 0 ("mirrored") true).D.x = 800 / 2) :=
  ⟨(grounding_invariant 600 1200 800 0 ("weird")).1 (by decide),
   (grounding_invariant 600 1200 800 0 ("mirrored")).2 rfl⟩

/-- The symbolic warning table for the classic preset is empty. -/
theorem stageWarnings_classic : stageWarnings (constraintsFromPreset ("classic")) = [] := rfl

/-- The symbolic warning table for bothBaseFixed is one message. -/
theorem stageWarnings_bothBaseFixed :
    stageWarnings (constraintsFromPreset ("bothBaseFixed")) = [Warning.bothBaseFixed] := rfl

/-- The symbolic warning table for bothTopFixed is one message. -/
theorem stageWarnings_bothTopFixed :
    stageWarnings (constraintsFromPreset ("bothTopFixed")) = [Warning.bothTopFixed] := rfl

/-- C5: the presets bothBaseFixed and bothTopFixed run the same (classic)
solver branch, so they return the same h, s and four pins as classic, while
their warnings are the classic warnings with the corresponding symbolic
over-constraint message prepended. -/
theorem overconstraint_presets_equiv_classic (L b t α : ℝ) :
    ((computeStage L b t α ("bothBaseFixed") true).h = (computeStage L b t α ("classic") true).h ∧
     (computeStage L b t α ("bothBaseFixed") true).s = (computeStage L b t α ("classic") true).s ∧
     (computeStage L b t α ("bothBaseFixed") true).A = (computeStage L b t α ("classic") true).A ∧
     (computeStage L b t α ("bothBaseFixed") true).B = (computeStage L b t α ("classic") true).B ∧
     (computeStage L b t α ("bothBaseFixed") true).C = (computeStage L b t α ("classic") true).C ∧
     (computeStage L b t α ("bothBaseFixed") true).D = (computeStage L b t α ("classic") true).D ∧
     (computeStage L b t α ("bothBaseFixed") true).warnings =
       Warning.bothBaseFixed :: (computeStage L b t α ("classic") true).warnings) ∧
    ((computeStage L b t α ("bothTopFixed") true).h = (computeStage L b t α ("classic") true).h ∧
     (computeStage L b t α ("bothTopFixed") true).s = (computeStage L b t α ("classic") true).s ∧
     (computeStage L b t α ("bothTopFixed") true).A = (computeStage L b t α ("classic") true).A ∧
     (computeStage L b t α ("bothTopFixed") true).B = (computeStage L b t α ("classic") true).B ∧
     (computeStage L b t α ("bothTopFixed") true).C = (computeStage L b t α ("classic") true).C ∧
     (computeStage L b t α ("bothTopFixed") true).D = (computeStage L b t α ("classic") true).D ∧
     (computeStage L b t α ("bothTopFixed") true).warnings =
       Warning.bothTopFixed :: (computeStage L b t α ("classic") true).warnings) := by
  rw [computeStage_true_not_mirrored L b t α ("bothBaseFixed") (by decide),
    computeStage_true_not_mirrored L b t α ("bothTopFixed") (by decide),
    computeStage_true_not_mirrored L b t α ("classic") (by decide)]
  refine ⟨⟨rfl, rfl, rfl, rfl, rfl, rfl, ?_⟩, ⟨rfl, rfl, rfl, rfl, rfl, rfl, ?_⟩⟩
  · rw [stageWarnings_bothBaseFixed, stageWarnings_classic]
    simp
  · rw [stageWarnings_bothTopFixed, stageWarnings_classic]
    simp

/-- C8: the spans returned by the lockX solver are the input rail lengths,
unchanged, for every preset and angle. -/
theorem spans_passthrough (L b t α : ℝ) (p : String) :
    (computeStage L b t α p true).baseSpan = b ∧
    (computeStage L b t α p true).topSpan = t := by
  by_cases hp : p = "mirrored"
  · rw [computeStage_true_mirrored L b t α p hp]
    exact ⟨rfl, rfl⟩
  · rw [computeStage_true_not_mirrored L b t α p hp]
    exact ⟨rfl, rfl⟩

/-- C10: in every solver branch (both presets, lockX on or off) the base pins
sit at elevation 0 and the top pins at elevation h = armLength * sin(angle),
which is also the returned h field. -/
theorem pin_elevation (L b t α : ℝ) (p : String) (lk : Bool) :
    (computeStage L b t α p lk).A.y = 0 ∧
    (computeStage L b t α p lk).B.y = 0 ∧
    (computeStage L b t α p lk).C.y = L * Real.sin (rad α) ∧
    (computeStage L b t α p lk).D.y = L * Real.sin (rad α) ∧
    (computeStage L b t α p lk).C.y = (computeStage L b t α p lk).h ∧
    (computeStage L b t α p lk).D.y = (computeStage L b t α p lk).h := by
  cases lk <;> by_cases hp : p = "mirrored" <;> simp [computeStage, hp]

/-- C6: the assembly holds exactly N stage copies; the i-th copy (0-based
index i, stored with idx i+1) keeps every pin X and raises every pin Y by
i * h, and totalH = N * h. -/
theorem stack_invariant (L b t α : ℝ) (p : String) (lk : Bool) (N i : ℕ)
    (_hN : 1 ≤ N) (hi : i < N) :
    (computeAll L b t α p lk N).stages.length = N ∧
    (computeAll L b t α p lk N).totalH =
      (N : ℝ) * (computeAll L b t α p lk N).stage0.h ∧
    ((computeAll L b t α p lk N).stages.getD i zeroStage).A =
      ⟨(computeAll L b t α p lk N).stage0.A.x,
       (computeAll L b t α p lk N).stage0.A.y + (i : ℝ) * (computeAll L b t α p lk N).stage0.h⟩ ∧
    ((computeAll L b t α p lk N).stages.getD i zeroStage).B =
      ⟨(computeAll L b t α p lk N).stage0.B.x,
       (computeAll L b t α p lk N).stage0.B.y + (i : ℝ) * (computeAll L b t α p lk N).stage0.h⟩ ∧
    ((computeAll L b t α p lk N).stages.getD i zeroStage).C =
      ⟨(computeAll L b t α p lk N).stage0.C.x,
       (computeAll L b t α p lk N).stage0.C.y + (i : ℝ) * (computeAll L b t α p lk N).stage0.h⟩ ∧
    ((computeAll L b t α p lk N).stages.getD i zeroStage).D =
      ⟨(computeAll L b t α p lk N).stage0.D.x,
       (computeAll L b t α p lk N).stage0.D.y + (i : ℝ) * (computeAll L b t α p lk N).stage0.h⟩ := by
  have hlen : i < (computeAll L b t α p lk N).stages.length := by
    simpa [computeAll] using hi
  have hget : (computeAll L b t α p lk N).stages.getD i zeroStage =
      { idx := i + 1,
        A := ⟨(computeStage L b t α p lk).A.x,
              (computeStage L b t α p lk).A.y + (i : ℝ) * (computeStage L b t α p lk).h⟩,
        B := ⟨(computeStage L b t α p lk).B.x,
              (computeStage L b t α p lk).B.y + (i : ℝ) * (computeStage L b t α p lk).h⟩,
        C := ⟨(computeStage L b t α p lk).C.x,
              (computeStage L b t α p lk).C.y + (i : ℝ) * (computeStage L b t α p lk).h⟩,
        D := ⟨(computeStage L b t α p lk).D.x,
              (computeStage L b t α p lk).D.y + (i : ℝ) * (computeStage L b t α p lk).h⟩,
        h := (computeStage L b t α p lk).h, s := (computeStage L b t α p lk).s } := by
    rw [List.getD_eq_getElem _ _ hlen]
    simp [computeAll, List.getElem_map, List.getElem_range]
  rw [hget]
  exact ⟨by simp [computeAll], rfl, rfl, rfl, rfl, rfl⟩

/-- Witness for C6 at N = 3, i = 2. -/
theorem stack_invariant_witness :
    1 ≤ 3 ∧ 2 < 3 ∧ (computeAll 600 1200 1200 25 ("classic") true 3).stages.length = 3 :=
  ⟨by norm_num, by norm_num,
   (stack_invariant 600 1200 1200 25 ("classic") true 3 2 (by norm_num) (by norm_num)).1⟩

/-- C9 counterexample: the solver result is not a function of the five
Configuration fields alone; it also reads the shared mutable state.lockX flag.
With identical five fields the two lockX values return different topSpan (and
different pin geometry). -/
theorem solver_depends_on_lockX :
    (computeStage 600 1200 1200 0 ("classic") true).topSpan = 1200 ∧
    (computeStage 600 1200 1200 0 ("classic") false).topSpan = -600 := by
  constructor
  · rw [computeStage_true_not_mirrored 600 1200 1200 0 ("classic") (by decide)]
  · have hr : rad 0 = 0 := by simp [rad]
    have hc : constraintsFromPreset ("classic") =
        ⟨EndMode.fixed, EndMode.slide, EndMode.slide, EndMode.fixed⟩ := rfl
    have hne : (EndMode.fixed = EndMode.slide) = False := by simp
    simp only [computeStage, hc, hr, Real.cos_zero, Real.sin_zero]
    norm_num [hne]

/-- C9 amended: for each fixed value of the lockX mode flag, the solver is
deterministic in the five Configuration fields: equal fields give equal
results, warnings and their order included. -/
theorem solver_deterministic_per_mode (L₁ b₁ t₁ α₁ L₂ b₂ t₂ α₂ : ℝ)
    (p₁ p₂ : String) (lk : Bool)
    (hL : L₁ = L₂) (hb : b₁ = b₂) (ht : t₁ = t₂) (hα : α₁ = α₂) (hp : p₁ = p₂) :
    computeStage L₁ b₁ t₁ α₁ p₁ lk = computeStage L₂ b₂ t₂ α₂ p₂ lk := by
  rw [hL, hb, ht, hα, hp]

/-- Witness for the amended C9. -/
theorem solver_deterministic_per_mode_witness :
    computeStage 600 1200 1200 25 ("classic") true =
      computeStage 600 1200 1200 25 ("classic") true :=
  solver_deterministic_per_mode 600 1200 1200 25 600 1200 1200 25
    ("classic") ("classic") true rfl rfl rfl rfl rfl
